import Mathlib

/-!
Verification of the link lifecycle and persistence core of the shorty URL
shortener (src/backend/src/link.rs), shallowly embedded in Lean 4.

The database table is modelled as a list of rows (`Table`). The single
`links` table is keyed by `id` (primary key). Machine integers (`i64`)
are modelled as `Int`; wall-clock time (`time_now()` /
`Local::now().timestamp_millis()`) is passed explicitly as a `now : Int`
parameter. Fallible operations return `Except ShortyError`, paired with
the table state after the call (early returns leave the table unchanged,
matching the code, where all validation happens before the INSERT).
-/

namespace Shorty

/-- One persisted row of the `links` table; mirrors `struct Link` in
src/backend/src/link.rs (all fields `i64` except the two strings). -/
structure Link where
  id : String
  redirect_to : String
  max_uses : Int
  invocations : Int
  created_at : Int
  valid_for : Int
deriving Repr, DecidableEq

/-- Creation input; mirrors `struct LinkConfig` in src/backend/src/link.rs
after deserialization (defaults already resolved to concrete values). -/
structure LinkConfig where
  link : String
  custom_id : Option String
  max_uses : Int
  valid_for : Int
deriving Repr, DecidableEq

/-- The process-wide configuration fields consumed by the core
(CONFIG.max_custom_id_length, CONFIG.max_link_length); the config module
itself is outside the link-management core. -/
structure Config where
  max_custom_id_length : Nat
  max_link_length : Nat
deriving Repr, DecidableEq

/-- The error variants of `ShortyError` raised by `Link::new_with_config`
(src/backend/src/link.rs lines 92, 106, 110, 118, 132). The spec names
them CustomIdentifierTooLong, EmptyTarget, TargetTooLong,
IdentifierConflict and ExpiredLinkProvided respectively. -/
inductive ShortyError where
  | CustomIDExceedsMaxLength
  | LinkEmpty
  | LinkExceedsMaxLength
  | LinkConflict
  | ExpiredLinkProvided
deriving Repr, DecidableEq

/-- `Link::is_expired` (src/backend/src/link.rs lines 160-170), with the
internal `Local::now().timestamp_millis()` made an explicit `now`. -/
def Link.is_expired (l : Link) (now : Int) : Bool :=
  let time_expired := decide (l.valid_for < 0) ||
    (decide (l.valid_for > 0) && decide (now - l.created_at > l.valid_for))
  let uses_invalid := decide (l.max_uses < 0) ||
    (decide (l.max_uses > 0) && decide (l.invocations >= l.max_uses))
  time_expired || uses_invalid

/-- The spec's pure Expiration Policy predicate, written from its formula
(spec section 4.2), over the raw fields. -/
def spec_is_expired (max_uses invocations created_at valid_for now : Int) : Bool :=
  let time_expired := decide (valid_for < 0) ||
    (decide (valid_for > 0) && decide (now - created_at > valid_for))
  let uses_invalid := decide (max_uses < 0) ||
    (decide (max_uses > 0) && decide (invocations >= max_uses))
  time_expired || uses_invalid

/-- The rows of the `links` table. -/
abbrev Table := List Link

/-- SELECT * FROM links WHERE id = $1 (first matching row, if any). -/
def selectRow (t : Table) (id : String) : Option Link :=
  t.find? (fun r => r.id == id)

/-- UPDATE links SET invocations = invocations + 1 WHERE id = $2. -/
def bumpInvocations (t : Table) (id : String) : Table :=
  t.map (fun r => if r.id == id then { r with invocations := r.invocations + 1 } else r)

/-- `Link::from_id` (src/backend/src/link.rs lines 174-192): the SELECT
runs before the UPDATE, so the returned row carries the pre-increment
`invocations`, while the stored row is incremented. -/
def Link.from_id (t : Table) (id : String) : Option Link × Table :=
  (selectRow t id, bumpInvocations t id)

/-- `Link::from_id_no_invocation` (src/backend/src/link.rs lines 196-210). -/
def Link.from_id_no_invocation (t : Table) (id : String) : Option Link :=
  selectRow t id

/-- `LinkStore::get` (src/backend/src/link.rs lines 248-261): fetch via
`from_id` (which increments the stored counter), then return the link
only when the fetched row is not expired. -/
def LinkStore.get (t : Table) (id : String) (now : Int) : Option Link × Table :=
  let res := Link.from_id t id
  match res.1 with
  | some link => if !(link.is_expired now) then (some link, res.2) else (none, res.2)
  | none => (none, res.2)

/-- Modelled from the spec: the URL-safe character set of identifiers
(the sanitation helper `replace_illegal_url_chars` lives in the util
module, which is not part of the link-management sources). -/
def urlSafeChar (c : Char) : Bool :=
  c.isAlphanum || c == '-' || c == '_' || c == '.' || c == '~'

/-- Modelled from the spec: "an illegal-character sanitation step
producing a URL-safe string" (`replace_illegal_url_chars` in the util
module, not part of the link-management sources); characters outside the
URL-safe set are replaced. -/
def replace_illegal_url_chars (s : String) : String :=
  String.mk (s.data.map (fun c => if urlSafeChar c then c else '-'))

/-- Character-list version of string prefix matching (kept executable in
the kernel). -/
def strStartsWith (s p : String) : Bool :=
  p.data.isPrefixOf s.data

/-- Modelled from the spec: "Normalize it by ensuring an explicit scheme
prefix is present" (`ensure_http_prefix` in the main module, not part of
the link-management sources); a target without a scheme gets `http`,
matching the spec scenario example.com to http-example.com. -/
def ensureScheme (s : String) : String :=
  if strStartsWith s "http://" || strStartsWith s "https://" then s else "http://" ++ s

/-- Identifier resolution step of `Link::new_with_config`
(src/backend/src/link.rs lines 90-98): a custom id is length-checked and
sanitized; otherwise the generated id `genId` is used (`get_random_id`
lives in the util module; its successfully produced value is passed in). -/
def resolveId (cfg : Config) (genId : String) (custom : Option String) :
    Except ShortyError String :=
  match custom with
  | some id =>
      if id.length > cfg.max_custom_id_length then
        Except.error ShortyError.CustomIDExceedsMaxLength
      else
        Except.ok (replace_illegal_url_chars id)
  | none => Except.ok genId

/-- INSERT OR REPLACE INTO links (src/backend/src/link.rs lines 137-150):
replaces the row holding the same primary key, otherwise inserts. -/
def upsert (t : Table) (l : Link) : Table :=
  if t.any (fun r => r.id == l.id) then
    t.map (fun r => if r.id == l.id then l else r)
  else
    t ++ [l]

/-- `Link::new_with_config` (src/backend/src/link.rs lines 86-154). The
pair carries the table after the call; every early error return leaves
it untouched, as in the code all checks precede the INSERT. -/
def Link.new_with_config (cfg : Config) (genId : String) (link_config : LinkConfig)
    (t : Table) (now : Int) : Except ShortyError Link × Table :=
  match resolveId cfg genId link_config.custom_id with
  | Except.error e => (Except.error e, t)
  | Except.ok id =>
    let redirect_to := link_config.link
    if redirect_to.isEmpty then (Except.error ShortyError.LinkEmpty, t)
    else if redirect_to.length > cfg.max_link_length then
      (Except.error ShortyError.LinkExceedsMaxLength, t)
    else
      let redirect_to := ensureScheme redirect_to
      let conflict := match Link.from_id_no_invocation t id with
        | some link => !(link.is_expired now)
        | none => false
      if conflict then (Except.error ShortyError.LinkConflict, t)
      else
        let shortened : Link :=
          { id := id, redirect_to := redirect_to, max_uses := link_config.max_uses,
            invocations := 0, created_at := now, valid_for := link_config.valid_for }
        if shortened.is_expired now then (Except.error ShortyError.ExpiredLinkProvided, t)
        else (Except.ok shortened, upsert t shortened)

/-- The WHERE clause of the DELETE in `LinkStore::clean`
(src/backend/src/link.rs lines 296-305): with SQL precedence,
(max_uses != 0 AND invocations > max_uses) OR created_at + valid_for < now. -/
def cleanPred (r : Link) (now : Int) : Bool :=
  (decide (r.max_uses ≠ 0) && decide (r.invocations > r.max_uses)) ||
    decide (r.created_at + r.valid_for < now)

/-- The table after `LinkStore::clean` (src/backend/src/link.rs lines
289-315): the DELETE keeps exactly the rows not matching `cleanPred`. -/
def LinkStore.clean (t : Table) (now : Int) : Table :=
  t.filter (fun r => !(cleanPred r now))

/-- The removed-row count that `LinkStore::clean` logs:
num_before - num_after (the function itself returns unit). -/
def cleanDelta (t : Table) (now : Int) : Nat :=
  t.length - (LinkStore.clean t now).length

deriving instance DecidableEq for Except

/-- The per-row effect of the UPDATE of `from_id`: only the `invocations`
field of rows keyed by the requested id changes, and it goes up by one. -/
def bumpFrame (id : String) (r r2 : Link) : Prop :=
  r2.id = r.id ∧ r2.redirect_to = r.redirect_to ∧ r2.max_uses = r.max_uses ∧
    r2.created_at = r.created_at ∧ r2.valid_for = r.valid_for ∧
    (r.id = id → r2.invocations = r.invocations + 1) ∧
    (r.id ≠ id → r2 = r)

theorem get_snd_eq_bump (t : Table) (id : String) (now : Int) :
    (LinkStore.get t id now).2 = bumpInvocations t id := by
  unfold LinkStore.get Link.from_id
  cases selectRow t id with
  | none => rfl
  | some link => by_cases h : link.is_expired now <;> simp [h]

theorem bumpInvocations_frame (t : Table) (id : String) :
    List.Forall₂ (bumpFrame id) t (bumpInvocations t id) := by
  induction t with
  | nil => simp [bumpInvocations]
  | cons a as ih =>
      simp only [bumpInvocations, List.map_cons]
      refine List.Forall₂.cons ?_ ih
      by_cases h : a.id = id <;> simp [bumpFrame, h]

theorem bumpInvocations_not_found (t : Table) (id : String)
    (h : selectRow t id = none) : bumpInvocations t id = t := by
  induction t with
  | nil => rfl
  | cons a as ih =>
      cases hb : (a.id == id) with
      | true => simp [selectRow, List.find?, hb] at h
      | false =>
          simp only [selectRow, List.find?, hb] at h
          simp only [bumpInvocations, List.map_cons, hb]
          rw [if_neg (by simp)]
          exact congrArg (a :: ·) (ih h)

theorem selectRow_bump (t : Table) (id : String) :
    selectRow (bumpInvocations t id) id =
      (selectRow t id).map (fun r => { r with invocations := r.invocations + 1 }) := by
  induction t with
  | nil => rfl
  | cons a as ih =>
      cases hb : (a.id == id) with
      | true =>
          have hb2 : (({ a with invocations := a.invocations + 1 } : Link).id == id) = true := hb
          simp [bumpInvocations, selectRow, List.find?, hb, hb2]
      | false =>
          have hg : (if (a.id == id) = true then
              { a with invocations := a.invocations + 1 } else a) = a := by
            rw [if_neg (by simp [hb])]
          simp only [bumpInvocations, List.map_cons, hg]
          simp only [selectRow, List.find?, hb]
          exact ih

theorem any_of_selectRow_some (t : Table) (id : String) (l : Link)
    (h : selectRow t id = some l) : t.any (fun r => r.id == id) = true := by
  have hm := List.mem_of_find?_eq_some h
  have hp := List.find?_some h
  exact List.any_eq_true.mpr ⟨l, hm, hp⟩

theorem any_of_selectRow_none (t : Table) (id : String)
    (h : selectRow t id = none) : t.any (fun r => r.id == id) = false := by
  rw [List.any_eq_false]
  intro r hr
  have := List.find?_eq_none.mp h r hr
  simpa using this

theorem selectRow_append_last (t : Table) (id : String) (l : Link)
    (h : selectRow t id = none) (hl : l.id = id) :
    selectRow (t ++ [l]) id = some l := by
  unfold selectRow at h ⊢
  rw [List.find?_append, h]
  simp [hl]

/-- C3: `Link.is_expired` coincides with the spec's pure Expiration
Policy predicate at every field valuation and every `now`; consequently a
negative sentinel in `valid_for` or `max_uses` forces expiry regardless
of the other fields, and `valid_for = 0` with `max_uses = 0` never
expires. -/
theorem C3_is_expired_matches_spec (l : Link) (now : Int) :
    (l.is_expired now =
        spec_is_expired l.max_uses l.invocations l.created_at l.valid_for now) ∧
    (l.valid_for < 0 ∨ l.max_uses < 0 → l.is_expired now = true) ∧
    (l.valid_for = 0 → l.max_uses = 0 → l.is_expired now = false) := by
  refine ⟨rfl, ?_, ?_⟩
  · intro h
    simp only [Link.is_expired, Bool.or_eq_true, Bool.and_eq_true, decide_eq_true_eq]
    omega
  · intro h1 h2
    simp [Link.is_expired, h1, h2]

/-- Witness for C3: a negative `max_uses` sentinel is expired, an
unlimited link is not. -/
theorem C3_witness :
    Link.is_expired ⟨"a", "http://a", -1, 0, 0, 5⟩ 7 = true ∧
    Link.is_expired ⟨"b", "http://b", 0, 9, 0, 0⟩ 7 = false :=
  ⟨(C3_is_expired_matches_spec ⟨"a", "http://a", -1, 0, 0, 5⟩ 7).2.1 (Or.inr (by decide)),
   (C3_is_expired_matches_spec ⟨"b", "http://b", 0, 9, 0, 0⟩ 7).2.2 rfl rfl⟩

/-- C1 counterexample: with a single fresh row having max_uses = 1, the
post-increment state (invocations = 1) is expired, yet `get` returns the
link and stores the incremented row: the code's SELECT runs before the
UPDATE, so the policy is evaluated on the pre-increment state, not the
post-increment one as the claim states. -/
theorem C1_counterexample :
    Link.is_expired ⟨"a", "http://a", 1, 1, 0, 0⟩ 0 = true ∧
    LinkStore.get [⟨"a", "http://a", 1, 0, 0, 0⟩] "a" 0 =
      (some ⟨"a", "http://a", 1, 0, 0, 0⟩, [⟨"a", "http://a", 1, 1, 0, 0⟩]) := by
  decide

/-- C1 (amended): a `get` that finds a row increments the stored
counter, but evaluates the Expiration Policy on the pre-increment row
returned by the SELECT; whenever `get` returns a link, that returned
(pre-increment) state is not expired. -/
theorem C1_get_pre_increment (t : Table) (id : String) (now : Int) (l : Link) (t2 : Table)
    (h : LinkStore.get t id now = (some l, t2)) :
    selectRow t id = some l ∧ l.is_expired now = false ∧ t2 = bumpInvocations t id := by
  unfold LinkStore.get Link.from_id at h
  cases hf : selectRow t id with
  | none =>
      rw [hf] at h
      simp at h
  | some link =>
      rw [hf] at h
      dsimp only at h
      cases he : link.is_expired now with
      | true =>
          rw [he] at h
          simp at h
      | false =>
          rw [he] at h
          rw [if_pos Bool.not_false] at h
          have h1 : link = l := Option.some.inj (congrArg Prod.fst h)
          have h2 : bumpInvocations t id = t2 := congrArg Prod.snd h
          subst h1
          exact ⟨rfl, he, h2.symm⟩

/-- Witness for C1 (amended): a successful `get` on an unlimited link. -/
theorem C1_witness :
    selectRow [⟨"a", "http://a", 0, 0, 0, 0⟩] "a" = some ⟨"a", "http://a", 0, 0, 0, 0⟩ ∧
    Link.is_expired ⟨"a", "http://a", 0, 0, 0, 0⟩ 0 = false ∧
    [⟨"a", "http://a", 0, 1, 0, 0⟩] = bumpInvocations [⟨"a", "http://a", 0, 0, 0, 0⟩] "a" :=
  C1_get_pre_increment [⟨"a", "http://a", 0, 0, 0, 0⟩] "a" 0
    ⟨"a", "http://a", 0, 0, 0, 0⟩ [⟨"a", "http://a", 0, 1, 0, 0⟩] (by decide)

/-- C2 (code bug): the DELETE predicate of `clean` diverges from
`is_expired` in both directions: it deletes a never-expiring row
(valid_for = 0, max_uses = 0) as soon as `now` exceeds `created_at`, and
it keeps an expired row whose invocations exactly equal a positive
max_uses. -/
theorem C2_clean_diverges :
    (Link.is_expired ⟨"a", "http://a", 0, 0, 0, 0⟩ 1 = false ∧
      LinkStore.clean [⟨"a", "http://a", 0, 0, 0, 0⟩] 1 = []) ∧
    (Link.is_expired ⟨"b", "http://b", 1, 1, 0, 1000⟩ 5 = true ∧
      LinkStore.clean [⟨"b", "http://b", 1, 1, 0, 1000⟩] 5 =
        [⟨"b", "http://b", 1, 1, 0, 1000⟩]) := by
  decide

/-- C8 (code bug): with one stored link that is not expired (so K = 0),
`clean` nevertheless removes it and logs a count of 1 (the function
itself returns unit and only logs); repeating `clean` at the same
instant removes 0 further rows. -/
theorem C8_clean_count_diverges :
    Link.is_expired ⟨"a", "http://a", 0, 0, 0, 0⟩ 1 = false ∧
    cleanDelta [⟨"a", "http://a", 0, 0, 0, 0⟩] 1 = 1 ∧
    cleanDelta (LinkStore.clean [⟨"a", "http://a", 0, 0, 0, 0⟩] 1) 1 = 0 := by
  decide

/-- C9 counterexample: a stored row that is already expired (invocations
5, max_uses 1): `get` resolves to absent, yet the stored counter is
incremented from 5 to 6 — the increment is not tied to a successful
resolution. -/
theorem C9_counterexample :
    (LinkStore.get [⟨"a", "http://a", 1, 5, 0, 0⟩] "a" 0).1 = none ∧
    (LinkStore.get [⟨"a", "http://a", 1, 5, 0, 0⟩] "a" 0).2 =
      [⟨"a", "http://a", 1, 6, 0, 0⟩] := by
  decide

/-- C9 (amended): no row's invocations counter ever decreases across a
`get`; `get` increments the counter of the row with the requested id by
one exactly when such a row exists, whether or not the link is returned;
and `clean` never modifies a surviving row (its result is a sublist of
the table). -/
theorem C9_invocations_monotone (t : Table) (id : String) (now : Int) :
    List.Forall₂ (fun r r2 => r.invocations ≤ r2.invocations) t (LinkStore.get t id now).2 ∧
    (∀ r, selectRow t id = some r →
      selectRow (LinkStore.get t id now).2 id =
        some { r with invocations := r.invocations + 1 }) ∧
    List.Sublist (LinkStore.clean t now) t := by
  refine ⟨?_, ?_, ?_⟩
  · rw [get_snd_eq_bump]
    refine (bumpInvocations_frame t id).imp ?_
    intro a b hab
    by_cases ha : a.id = id
    · have := hab.2.2.2.2.2.1 ha
      omega
    · have := hab.2.2.2.2.2.2 ha
      rw [this]
  · intro r hr
    rw [get_snd_eq_bump, selectRow_bump, hr]
    rfl
  · exact List.filter_sublist t

/-- Witness for C9 (amended): the stored counter of an existing row goes
from 3 to 4. -/
theorem C9_witness :
    selectRow (LinkStore.get [⟨"a", "http://a", 0, 3, 0, 0⟩] "a" 0).2 "a" =
      some ⟨"a", "http://a", 0, 4, 0, 0⟩ :=
  (C9_invocations_monotone [⟨"a", "http://a", 0, 3, 0, 0⟩] "a" 0).2.1
    ⟨"a", "http://a", 0, 3, 0, 0⟩ (by decide)

/-- C10: `get` is frame-precise: every row keeps its id, target, limits
and creation time; only rows keyed by the requested id have their
invocations raised, by exactly one; rows with other keys are unchanged,
and if no row has the requested id the table is unchanged. -/
theorem C10_get_frame (t : Table) (id : String) (now : Int) :
    List.Forall₂ (bumpFrame id) t (LinkStore.get t id now).2 ∧
    (selectRow t id = none → (LinkStore.get t id now).2 = t) := by
  constructor
  · rw [get_snd_eq_bump]
    exact bumpInvocations_frame t id
  · intro h
    rw [get_snd_eq_bump]
    exact bumpInvocations_not_found t id h

/-- Witness for C10: a `get` on an absent id leaves the table unchanged. -/
theorem C10_witness :
    (LinkStore.get [⟨"b", "http://b", 0, 0, 0, 0⟩] "a" 0).2 =
      [⟨"b", "http://b", 0, 0, 0, 0⟩] :=
  (C10_get_frame [⟨"b", "http://b", 0, 0, 0, 0⟩] "a" 0).2 (by decide)

/-- C5 counterexample: the identifier "abc" is bound to an active
(unlimited, hence non-expired) row, but the request's target is empty:
creation fails with the empty-target error, not the conflict error, since
target validation runs before the conflict check. -/
theorem C5_counterexample :
    Link.is_expired ⟨"abc", "http://a", 0, 0, 0, 0⟩ 0 = false ∧
    resolveId ⟨10, 100⟩ "g" (some "abc") = Except.ok "abc" ∧
    (Link.new_with_config ⟨10, 100⟩ "g" ⟨"", some "abc", 0, 0⟩
        [⟨"abc", "http://a", 0, 0, 0, 0⟩] 0).1 = Except.error ShortyError.LinkEmpty ∧
    (Link.new_with_config ⟨10, 100⟩ "g" ⟨"", some "abc", 0, 0⟩
        [⟨"abc", "http://a", 0, 0, 0, 0⟩] 0).1 ≠ Except.error ShortyError.LinkConflict := by
  decide

/-- C5 (amended): for every creation request that passes identifier
resolution and target validation and whose resolved identifier is bound
to an active (non-expired) row, creation fails with the conflict error
(ShortyError::LinkConflict, the spec's IdentifierConflict) and the table
— including the existing row's counters — is left completely unchanged. -/
theorem C5_conflict (cfg : Config) (genId : String) (link_config : LinkConfig)
    (t : Table) (now : Int) (id : String) (l : Link)
    (hid : resolveId cfg genId link_config.custom_id = Except.ok id)
    (hne : link_config.link.isEmpty = false)
    (hlen : ¬ (link_config.link.length > cfg.max_link_length))
    (hrow : selectRow t id = some l)
    (hact : l.is_expired now = false) :
    Link.new_with_config cfg genId link_config t now =
      (Except.error ShortyError.LinkConflict, t) := by
  simp [Link.new_with_config, hid, hne, hlen, Link.from_id_no_invocation, hrow, hact]

/-- Witness for C5 (amended): conflicting creation over an active row. -/
theorem C5_witness :
    Link.new_with_config ⟨10, 100⟩ "g" ⟨"x", some "abc", 0, 0⟩
        [⟨"abc", "http://a", 0, 0, 0, 0⟩] 0 =
      (Except.error ShortyError.LinkConflict, [⟨"abc", "http://a", 0, 0, 0, 0⟩]) :=
  C5_conflict ⟨10, 100⟩ "g" ⟨"x", some "abc", 0, 0⟩ [⟨"abc", "http://a", 0, 0, 0, 0⟩] 0
    "abc" ⟨"abc", "http://a", 0, 0, 0, 0⟩ (by decide) (by decide) (by decide) (by decide)
    (by decide)

/-- C6: a creation request that passes resolution and validation, whose
resolved identifier is bound to an expired row, and that carries no
negative sentinel, succeeds; the persisted row for that identifier is
fully replaced by the new link, with invocations 0 and created_at set to
the creation time. -/
theorem C6_replaces_expired (cfg : Config) (genId : String) (link_config : LinkConfig)
    (t : Table) (now : Int) (id : String) (l : Link)
    (hid : resolveId cfg genId link_config.custom_id = Except.ok id)
    (hne : link_config.link.isEmpty = false)
    (hlen : ¬ (link_config.link.length > cfg.max_link_length))
    (hrow : selectRow t id = some l)
    (hexp : l.is_expired now = true)
    (hmu : 0 ≤ link_config.max_uses)
    (hvf : 0 ≤ link_config.valid_for) :
    Link.new_with_config cfg genId link_config t now =
      (Except.ok ⟨id, ensureScheme link_config.link, link_config.max_uses, 0, now,
          link_config.valid_for⟩,
        t.map (fun r => if r.id == id then
          ⟨id, ensureScheme link_config.link, link_config.max_uses, 0, now,
            link_config.valid_for⟩ else r)) := by
  have hfresh : Link.is_expired ⟨id, ensureScheme link_config.link, link_config.max_uses, 0,
      now, link_config.valid_for⟩ now = false := by
    rw [Bool.eq_false_iff]
    intro hC
    simp only [Link.is_expired, Bool.or_eq_true, Bool.and_eq_true, decide_eq_true_eq] at hC
    omega
  have hany := any_of_selectRow_some t id l hrow
  simp [Link.new_with_config, hid, hne, hlen, Link.from_id_no_invocation, hrow, hexp,
    hfresh, upsert, hany]

/-- Witness for C6: replacing a used-up link with a fresh one. -/
theorem C6_witness :
    Link.new_with_config ⟨10, 100⟩ "g" ⟨"x", some "abc", 2, 0⟩
        [⟨"abc", "http://old", 1, 5, 0, 0⟩] 7 =
      (Except.ok ⟨"abc", "http://x", 2, 0, 7, 0⟩, [⟨"abc", "http://x", 2, 0, 7, 0⟩]) := by
  rw [C6_replaces_expired ⟨10, 100⟩ "g" ⟨"x", some "abc", 2, 0⟩
    [⟨"abc", "http://old", 1, 5, 0, 0⟩] 7 "abc" ⟨"abc", "http://old", 1, 5, 0, 0⟩
    (by decide) (by decide) (by decide) (by decide) (by decide) (by decide) (by decide)]
  decide

/-- C7: once resolution, target validation and the conflict check pass,
creation fails with ExpiredLinkProvided exactly when the caller supplied
a negative sentinel (max_uses < 0 or valid_for < 0, which make the fresh
record with invocations 0 and created_at now already expired), and in
that case nothing is persisted. -/
theorem C7_expired_link_provided (cfg : Config) (genId : String) (link_config : LinkConfig)
    (t : Table) (now : Int) (id : String)
    (hid : resolveId cfg genId link_config.custom_id = Except.ok id)
    (hne : link_config.link.isEmpty = false)
    (hlen : ¬ (link_config.link.length > cfg.max_link_length))
    (hconf : ∀ l, selectRow t id = some l → l.is_expired now = true) :
    ((Link.new_with_config cfg genId link_config t now).1 =
        Except.error ShortyError.ExpiredLinkProvided ↔
      (link_config.max_uses < 0 ∨ link_config.valid_for < 0)) ∧
    ((link_config.max_uses < 0 ∨ link_config.valid_for < 0) →
      Link.new_with_config cfg genId link_config t now =
        (Except.error ShortyError.ExpiredLinkProvided, t)) := by
  have hred : Link.new_with_config cfg genId link_config t now =
      (if Link.is_expired ⟨id, ensureScheme link_config.link, link_config.max_uses, 0, now,
          link_config.valid_for⟩ now = true
       then (Except.error ShortyError.ExpiredLinkProvided, t)
       else (Except.ok ⟨id, ensureScheme link_config.link, link_config.max_uses, 0, now,
              link_config.valid_for⟩,
            upsert t ⟨id, ensureScheme link_config.link, link_config.max_uses, 0, now,
              link_config.valid_for⟩)) := by
    cases hr : selectRow t id with
    | none =>
        simp [Link.new_with_config, hid, hne, hlen, Link.from_id_no_invocation, hr]
    | some l =>
        have hl := hconf l hr
        simp [Link.new_with_config, hid, hne, hlen, Link.from_id_no_invocation, hr, hl]
  have hiff : (Link.is_expired ⟨id, ensureScheme link_config.link, link_config.max_uses, 0,
      now, link_config.valid_for⟩ now = true) ↔
      (link_config.max_uses < 0 ∨ link_config.valid_for < 0) := by
    simp only [Link.is_expired, Bool.or_eq_true, Bool.and_eq_true, decide_eq_true_eq]
    omega
  cases hexp : Link.is_expired ⟨id, ensureScheme link_config.link, link_config.max_uses, 0,
      now, link_config.valid_for⟩ now with
  | true =>
      have hs := hiff.mp hexp
      rw [hred, hexp]
      exact ⟨by simp [hs], fun _ => by simp⟩
  | false =>
      have hs : ¬ (link_config.max_uses < 0 ∨ link_config.valid_for < 0) := by
        intro hc
        rw [hiff.mpr hc] at hexp
        exact Bool.noConfusion hexp
      rw [hred, hexp]
      exact ⟨by simp [hs], fun hc => absurd hc hs⟩

/-- Witness for C7: a negative max_uses sentinel is rejected with
ExpiredLinkProvided and the (empty) table is untouched. -/
theorem C7_witness :
    (Link.new_with_config ⟨10, 100⟩ "g" ⟨"x", some "ab", -1, 0⟩ [] 0).1 =
      Except.error ShortyError.ExpiredLinkProvided ∧
    Link.new_with_config ⟨10, 100⟩ "g" ⟨"x", some "ab", -1, 0⟩ [] 0 =
      (Except.error ShortyError.ExpiredLinkProvided, []) := by
  have h := C7_expired_link_provided ⟨10, 100⟩ "g" ⟨"x", some "ab", -1, 0⟩ [] 0 "ab"
    (by decide) (by decide) (by decide)
    (fun l hl => by simp [selectRow, List.find?] at hl)
  exact ⟨h.1.mpr (Or.inl (by decide)), h.2 (Or.inl (by decide))⟩

/-- C4: starting from a store with no row for "abc", creating with
link "example.com", custom_id "abc", max_uses 1, valid_for 0 succeeds
with id "abc" and redirect_to "http://example.com"; the first get("abc")
returns the link and the stored invocations becomes 1; the second
get("abc") returns absent because the usage cap is reached. -/
theorem C4_scenario (cfg : Config) (genId : String) (t : Table) (now0 now1 now2 : Int)
    (hcid : 3 ≤ cfg.max_custom_id_length) (hlink : 11 ≤ cfg.max_link_length)
    (habs : selectRow t "abc" = none) :
    Link.new_with_config cfg genId ⟨"example.com", some "abc", 1, 0⟩ t now0 =
      (Except.ok ⟨"abc", "http://example.com", 1, 0, now0, 0⟩,
        t ++ [⟨"abc", "http://example.com", 1, 0, now0, 0⟩]) ∧
    LinkStore.get (t ++ [⟨"abc", "http://example.com", 1, 0, now0, 0⟩]) "abc" now1 =
      (some ⟨"abc", "http://example.com", 1, 0, now0, 0⟩,
        t ++ [⟨"abc", "http://example.com", 1, 1, now0, 0⟩]) ∧
    (LinkStore.get (t ++ [⟨"abc", "http://example.com", 1, 1, now0, 0⟩]) "abc" now2).1 =
      none := by
  have hc : ¬ ("abc".length > cfg.max_custom_id_length) := by
    have h3 : "abc".length = 3 := by decide
    omega
  have hid : resolveId cfg genId (some "abc") = Except.ok "abc" := by
    unfold resolveId
    dsimp only
    rw [if_neg hc]
    decide
  have hne : ("example.com").isEmpty = false := by decide
  have hlen2 : ¬ ("example.com".length > cfg.max_link_length) := by
    have h11 : "example.com".length = 11 := by decide
    omega
  have hscheme : ensureScheme "example.com" = "http://example.com" := by decide
  have hexp0 : Link.is_expired ⟨"abc", "http://example.com", 1, 0, now0, 0⟩ now0 = false := by
    rw [Bool.eq_false_iff]
    intro hC
    simp only [Link.is_expired, Bool.or_eq_true, Bool.and_eq_true, decide_eq_true_eq] at hC
    omega
  have hany := any_of_selectRow_none t "abc" habs
  refine ⟨?_, ?_, ?_⟩
  · simp [Link.new_with_config, hid, hne, hlen2, Link.from_id_no_invocation, habs,
      hscheme, hexp0, upsert, hany]
  · have hsel2 : selectRow (t ++ [⟨"abc", "http://example.com", 1, 0, now0, 0⟩]) "abc" =
        some ⟨"abc", "http://example.com", 1, 0, now0, 0⟩ :=
      selectRow_append_last t "abc" ⟨"abc", "http://example.com", 1, 0, now0, 0⟩ habs rfl
    have hexp1 : Link.is_expired ⟨"abc", "http://example.com", 1, 0, now0, 0⟩ now1 = false := by
      rw [Bool.eq_false_iff]
      intro hC
      simp only [Link.is_expired, Bool.or_eq_true, Bool.and_eq_true, decide_eq_true_eq] at hC
      omega
    have hbt : bumpInvocations t "abc" = t := bumpInvocations_not_found t "abc" habs
    have htbl : bumpInvocations (t ++ [⟨"abc", "http://example.com", 1, 0, now0, 0⟩]) "abc" =
        t ++ [⟨"abc", "http://example.com", 1, 1, now0, 0⟩] := by
      simp only [bumpInvocations, List.map_append]
      simp only [bumpInvocations] at hbt
      rw [hbt]
      rfl
    simp [LinkStore.get, Link.from_id, hsel2, hexp1, htbl]
  · have hsel3 : selectRow (t ++ [⟨"abc", "http://example.com", 1, 1, now0, 0⟩]) "abc" =
        some ⟨"abc", "http://example.com", 1, 1, now0, 0⟩ :=
      selectRow_append_last t "abc" ⟨"abc", "http://example.com", 1, 1, now0, 0⟩ habs rfl
    have hexp2 : Link.is_expired ⟨"abc", "http://example.com", 1, 1, now0, 0⟩ now2 = true := by
      simp only [Link.is_expired, Bool.or_eq_true, Bool.and_eq_true, decide_eq_true_eq]
      omega
    simp [LinkStore.get, Link.from_id, hsel3, hexp2]

/-- Witness for C4: the scenario run from the empty store with limits
3 and 11 at times 0, 1, 2. -/
theorem C4_witness :
    Link.new_with_config ⟨3, 11⟩ "g" ⟨"example.com", some "abc", 1, 0⟩ [] 0 =
      (Except.ok ⟨"abc", "http://example.com", 1, 0, 0, 0⟩,
        [⟨"abc", "http://example.com", 1, 0, 0, 0⟩]) ∧
    LinkStore.get [⟨"abc", "http://example.com", 1, 0, 0, 0⟩] "abc" 1 =
      (some ⟨"abc", "http://example.com", 1, 0, 0, 0⟩,
        [⟨"abc", "http://example.com", 1, 1, 0, 0⟩]) ∧
    (LinkStore.get [⟨"abc", "http://example.com", 1, 1, 0, 0⟩] "abc" 2).1 = none := by
  have h := C4_scenario ⟨3, 11⟩ "g" [] 0 1 2 (by decide) (by decide) rfl
  simpa using h
